import Mathlib

/-!
Verification of the qne-cli round-execution engine, topology builder and
logging pipeline (`adk/managers/vanilla_netsquid_roundet_manager.py`,
`adk/generators/netsquid_network_generator.py`,
`adk/generators/vanilla_netsquid_log_generator.py`) against its
natural-language specification.

The Python code is shallowly embedded: dictionaries become association
lists, exception-raising code returns `Except`, the filesystem becomes an
explicit map from paths to file contents, and external collaborators
(the NetSquid noise-model constructors, the input parser, the output
converter) become explicit function parameters describing their observable
behaviour.
-/

namespace QneCli

/-! ## Structured logger (`vanilla_netsquid_log_generator.py`) -/

/-- One entry of the node-internal (instruction) stream, as appended by
`add_log_command` for `log_type == "node-log"`: keys INS, LOG, WCT, OUT. -/
structure InstrEntry where
  ins : String
  log : String
  wct : Int
  out : Option String
deriving DecidableEq

/-- One entry of the classical-link stream (`log_type == "clink-log"`):
keys INS, LOG, WCT, SEN, REC, MSG. -/
structure ClinkEntry where
  ins : String
  log : String
  wct : Int
  sen : Option String
  recv : Option String
  msg : Option String
deriving DecidableEq

/-- One entry of the quantum-link stream (`log_type == "qlink-log"`):
keys INS, LOG, WCT, NOD, PTH. -/
structure QlinkEntry where
  ins : String
  log : String
  wct : Int
  nod : List String
  pth : String
deriving DecidableEq

/-- A YAML item written to a log file: each log file holds entries of one
of the three stream shapes. -/
inductive Entry where
  | instr (e : InstrEntry)
  | clink (e : ClinkEntry)
  | qlink (e : QlinkEntry)
deriving DecidableEq

/-- State of a `VanillaNetSquidLogger` instance: the role table it was
constructed with, the three in-memory streams, and the three target file
paths computed in `__init__`. -/
structure VanillaNetSquidLogger where
  role_mappings : List (String × String)
  instrs_logs : List InstrEntry
  qlink_logs : List QlinkEntry
  clink_logs : List ClinkEntry
  instr_log_file : String
  qlink_log_file : String
  clink_log_file : String
deriving DecidableEq

/-- `VanillaNetSquidLogger.__init__(app_role, directory, role_mappings)`:
empty streams, file paths joined from the directory. -/
def VanillaNetSquidLogger.init (app_role directory : String)
    (role_mappings : List (String × String)) : VanillaNetSquidLogger :=
  { role_mappings := role_mappings
    instrs_logs := []
    qlink_logs := []
    clink_logs := []
    instr_log_file := directory ++ "/" ++ app_role ++ "_instrs.yaml"
    qlink_log_file := directory ++ "/network_log.yaml"
    clink_log_file := directory ++ "/" ++ app_role ++ "_class_comm.yaml" }

/-- Python dictionary subscription `role_mappings[key]` on an optional key:
`None` is never a key of the role table, and a missing key raises
`KeyError`; both are modelled as `Except.error`. -/
def dictLookup (m : List (String × String)) (key : Option String) :
    Except String String :=
  match key with
  | none => .error "KeyError: None"
  | some s =>
    match m.lookup s with
    | some v => .ok v
    | none => .error ("KeyError: " ++ s)

/-- `VanillaNetSquidLogger.add_log_command`: route the entry into the
stream selected by `log_type`; unrecognized tags are a silent no-op.  For
`"qlink-log"` the sender is resolved first, then the receiver, each by an
unguarded dictionary subscription that can raise `KeyError`. -/
def VanillaNetSquidLogger.add_log_command (L : VanillaNetSquidLogger)
    (message log_type ins : String) (sim_time : Int)
    (sender receiver : Option String) (value : Option String) :
    Except String VanillaNetSquidLogger :=
  if log_type = "node-log" then
    .ok { L with instrs_logs :=
      L.instrs_logs ++ [⟨ins, message, sim_time, value⟩] }
  else if log_type = "clink-log" then
    .ok { L with clink_logs :=
      L.clink_logs ++ [⟨ins, message, sim_time, sender, receiver, value⟩] }
  else if log_type = "qlink-log" then
    match dictLookup L.role_mappings sender with
    | .error e => .error e
    | .ok sender_node =>
      match dictLookup L.role_mappings receiver with
      | .error e => .error e
      | .ok receiver_node =>
        .ok { L with qlink_logs := L.qlink_logs ++
          [⟨ins, message, sim_time, [sender_node, receiver_node],
            sender_node ++ "-" ++ receiver_node⟩] }
  else
    .ok L

/-- The filesystem seen by `finish_logging`: contents of each path as the
list of YAML items it holds. -/
def FileSystem : Type := String → List Entry

/-- `open(path, 'w')` followed by dumping every item: the file now holds
exactly the dumped items. -/
def writeFile (fs : FileSystem) (path : String) (items : List Entry) :
    FileSystem :=
  fun p => if p = path then items else fs p

/-- `open(path, 'a')` followed by dumping every item: the items are added
after the existing contents. -/
def appendFile (fs : FileSystem) (path : String) (items : List Entry) :
    FileSystem :=
  fun p => if p = path then fs p ++ items else fs p

/-- `VanillaNetSquidLogger.finish_logging`: each non-empty stream is
flushed to its file — instruction and classical-link streams with mode
`'w'`, the quantum-link stream with mode `'a'`; an empty stream leaves its
file untouched. -/
def VanillaNetSquidLogger.finish_logging (L : VanillaNetSquidLogger)
    (fs : FileSystem) : FileSystem :=
  let fs1 := if L.instrs_logs ≠ [] then
    writeFile fs L.instr_log_file (L.instrs_logs.map Entry.instr) else fs
  let fs2 := if L.qlink_logs ≠ [] then
    appendFile fs1 L.qlink_log_file (L.qlink_logs.map Entry.qlink) else fs1
  if L.clink_logs ≠ [] then
    writeFile fs2 L.clink_log_file (L.clink_logs.map Entry.clink) else fs2

/-! ## Round-set manager (`vanilla_netsquid_roundet_manager.py`) -/

/-- A Python exception as observed by the `except` clauses of
`VanillaNetSquidRoundSetManager.process`: `CalledProcessError` (with
return code and optional decoded stderr), `TimeoutExpired` (with the
timeout in seconds and optional decoded stderr), or any other exception
(with its type name and `str(exc)`). -/
inductive PyExc where
  | calledProcessError (returncode : Int) (stderr : Option String)
  | timeoutExpired (timeout : Nat) (stderr : Option String)
  | otherError (typeName : String) (message : String)
deriving DecidableEq

/-- The `(exception_type, message, trace)` triple recorded by the three
`except` clauses of `process` (lines 71-85 of the source). -/
def exceptInfo : PyExc → String × String × Option String
  | .calledProcessError rc stderr =>
    ("CalledProcessError",
     "NetSquid returned with exit status " ++ toString rc ++ ".", stderr)
  | .timeoutExpired t stderr =>
    ("TimeoutExpired",
     "Call to simulator timed out after " ++ toString t ++ " seconds.",
     stderr)
  | .otherError name msg => (name, msg, none)

/-- Modelled from the spec: the `ResultType` produced for one round by the
external `OutputConverter.convert` / `ErrorResultGenerator.generate`
collaborators (their modules `adk/parsers/output_converter.py` and
`adk/generators/result_generator.py` are not part of the provided
sources).  Per the spec's RoundResult: Success{round number, map
role→output} or Error{round number, failure kind, message, optional
trace}; exactly one per round. -/
inductive ResultType where
  | success (round_number : Nat) (outputs : List (String × Int))
  | error (round_number : Nat) (exception_type : String) (message : String)
      (trace : Option String)
deriving DecidableEq

/-- Modelled from the spec: `ErrorResultGenerator.generate(round_set,
round_number, exception_type, message, trace)` synthesizes the round-level
error record with no per-role outputs. -/
def errorResultGenerate (round_number : Nat) (exception_type message : String)
    (trace : Option String) : ResultType :=
  .error round_number exception_type message trace

/-- Modelled from the spec: `OutputConverter.convert(round_number)`
packages the raw per-role outputs written to `results.yaml` into the
round's result document. -/
def outputConverterConvert (round_number : Nat)
    (outputs : List (String × Int)) : ResultType :=
  .success round_number outputs

/-- `VanillaNetSquidRoundSetManager._run_application(timeout)`.
Observable behaviour is determined by
* `setup` — the setup phase (lines 126-167: `sys.path` mutation,
  directory juggling, module import via `importlib`, YAML input reads);
  if any of it raises, `_run_application` raises;
* `roleRuns` — per role (in `role_dict` order), what that role's
  `main(**input_values[role])` does on its worker thread: return an
  output value or raise.
The thread-pool loop collects `future.result()` per role, but a raising
role is caught by `except Exception as e: print(e)` and contributes
nothing; the surviving outputs are written to `results.yaml` keyed
`"app_" + role`.  The `timeout` argument is accepted and never used
(source: `#TODO: Handle timeout.`). -/
def run_application (setup : Except PyExc Unit)
    (roleRuns : List (String × Except PyExc Int)) (timeout : Option Nat) :
    Except PyExc (List (String × Int)) :=
  match setup with
  | .error e => .error e
  | .ok _ =>
    .ok (roleRuns.filterMap fun rr =>
      match rr.2 with
      | .ok v => some ("app_" ++ rr.1, v)
      | .error _ => none)

/-- `VanillaNetSquidRoundSetManager.process(timeout)`.  Lines 63-64 call
`prepare_input` and `prepare_output` OUTSIDE the `try` block; only the
call to `_run_application` is guarded by the `except` clauses, which
convert a raised exception into an error result via
`ErrorResultGenerator.generate`; otherwise the converter's result is
returned.  Either way the method returns a one-element list. -/
def process (prepare_input prepare_output : Except PyExc Unit)
    (setup : Except PyExc Unit)
    (roleRuns : List (String × Except PyExc Int)) (timeout : Option Nat) :
    Except PyExc (List ResultType) :=
  match prepare_input with
  | .error e => .error e
  | .ok _ =>
    match prepare_output with
    | .error e => .error e
    | .ok _ =>
      match run_application setup roleRuns timeout with
      | .ok outs => .ok [outputConverterConvert 1 outs]
      | .error exc =>
        let info := exceptInfo exc
        .ok [errorResultGenerate 1 info.1 info.2.1 info.2.2]

/-! ## Network generator (`netsquid_network_generator.py`) -/

/-- Node geocoordinates `{"latitude": ..., "longitude": ...}` in degrees. -/
structure Coordinates where
  latitude : ℝ
  longitude : ℝ

/-- One element of a template's `parameters` list: the used slice
`params["values"][0]` is a `{"name": ..., "value": ...}` record; the
`values` list may be empty or longer (only index 0 is read). -/
structure ParamValue where
  name : String
  value : Int
deriving DecidableEq

/-- A `parameters` list element, holding its `values` list. -/
structure TemplateParam where
  values : List ParamValue
deriving DecidableEq

/-- A node-template catalog entry (element of `node_properties`): its
slug, geocoordinates, `node_parameters` and `qubits` lists. -/
structure NodeProperties where
  slug : String
  coordinates : Coordinates
  node_parameters : List TemplateParam
  qubits : List String

/-- A channel-template catalog entry (element of `channel_properties`). -/
structure Channel where
  slug : String
  parameters : List TemplateParam

/-- Python dict insertion `d[k] = v`: replace the value of an existing
key, else add the pair at the end (dicts preserve insertion order). -/
def dictInsert (d : List (String × Int)) (k : String) (v : Int) :
    List (String × Int) :=
  if d.any (fun kv => kv.1 = k) then
    d.map (fun kv => if kv.1 = k then (k, v) else kv)
  else
    d ++ [(k, v)]

/-- The dict comprehension
`{params["values"][0]["name"]: params["values"][0]["value"] for params in ...}`
used by both `create_processor` and `create_qlink`; an empty `values`
list raises `IndexError`. -/
def buildParameters (ps : List TemplateParam) :
    Except String (List (String × Int)) :=
  ps.foldlM
    (fun d p =>
      match p.values.head? with
      | none => .error "IndexError: list index out of range"
      | some pv => .ok (dictInsert d pv.name pv.value))
    []

/-- The repository's `BSMNoiseModel(det_eff, **kwargs)` detector
efficiency model, as the data it stores. -/
structure BSMNoiseModel where
  det_eff : Int
deriving DecidableEq

/-- NetSquid's `DepolarNoiseModel(depolar_rate, ...)` memory noise model,
as the data relevant here. -/
structure DepolarNoiseModel where
  depolar_rate : Int
deriving DecidableEq

/-- NetSquid's `FibreLossModel(**parameters)` loss model, as the keyword
parameters it was built from. -/
structure FibreLossModel where
  params : List (String × Int)
deriving DecidableEq

/-- A `PhysicalInstruction(instr, duration, parallel, ...)` entry of the
processor's instruction list; only `INSTR_MEASURE_BELL` carries a
classical noise model. -/
structure PhysicalInstruction where
  instr : String
  duration : Nat
  parallel : Bool
  classical_noise_model : Option BSMNoiseModel
deriving DecidableEq

/-- The `QuantumProcessor` built by `create_processor`. -/
structure QuantumProcessor where
  name : String
  num_positions : Nat
  memory_noise_models : List DepolarNoiseModel
  phys_instructions : List PhysicalInstruction
deriving DecidableEq

/-- The fixed `physical_instructions` list of `create_processor` (lines
154-165): measurement-class instructions are non-parallel, all others
parallel; only `INSTR_MEASURE_BELL` carries the BSM noise model. -/
def physicalInstructions (bsm : BSMNoiseModel) : List PhysicalInstruction :=
  [⟨"INSTR_INIT", 3, true, none⟩,
   ⟨"INSTR_H", 1, true, none⟩,
   ⟨"INSTR_X", 1, true, none⟩,
   ⟨"INSTR_Z", 1, true, none⟩,
   ⟨"INSTR_S", 1, true, none⟩,
   ⟨"INSTR_CNOT", 4, true, none⟩,
   ⟨"INSTR_MEASURE", 7, false, none⟩,
   ⟨"INSTR_MEASURE_X", 7, false, none⟩,
   ⟨"INSTR_MEASURE_BELL", 7, false, some bsm⟩]

/-- `create_processor(node_properties)`.  The NetSquid constructors are
external collaborators, passed in as `bsmCtor`/`depolarCtor`: applied to
the keyword dict, they either accept it (`some model`) or raise
(`none`).  The source wraps each call in `try/except` with fallbacks
`BSMNoiseModel(det_eff=1)` and `DepolarNoiseModel(depolar_rate=0)`.  The
parameter dict comprehension itself runs before the `try` blocks, so its
failure propagates. -/
def create_processor
    (bsmCtor : List (String × Int) → Option BSMNoiseModel)
    (depolarCtor : List (String × Int) → Option DepolarNoiseModel)
    (np : NodeProperties) : Except String QuantumProcessor :=
  match buildParameters np.node_parameters with
  | .error e => .error e
  | .ok parameters =>
    let num_qubits := np.qubits.length
    let bsm_noise_model := (bsmCtor parameters).getD ⟨1⟩
    let memory_noise_model := (depolarCtor parameters).getD ⟨0⟩
    .ok ⟨"quantum_processor", num_qubits,
         List.replicate num_qubits memory_noise_model,
         physicalInstructions bsm_noise_model⟩

/-- A NetSquid `Node(name=role, qmemory=...)`. -/
structure NSNode where
  name : String
  qmemory : QuantumProcessor
deriving DecidableEq

/-- The bidirectional quantum connection made by `create_qlink`, as its
observable data: the two endpoint node names, the channel length and the
loss model built from the channel template. -/
structure QLink (α : Type) where
  node_one : String
  node_two : String
  distance : α
  loss_model : FibreLossModel
deriving DecidableEq

/-- The bidirectional classical connection made by `create_clink`. -/
structure CLink (α : Type) where
  node_one : String
  node_two : String
  distance : α
deriving DecidableEq

/-- The result of `create_netsquid_fully_connected_network`: the returned
`netsquid_nodes` dict plus the connections created as side effects.  The
distance type `α` is abstract here; the source computes distances with
`link_distance` (real-valued). -/
structure Network (α : Type) where
  nodes : List (String × NSNode)
  qlinks : List (QLink α)
  clinks : List (CLink α)
deriving DecidableEq

/-- `create_qlink(node_one, node_two, distance, link_properties)`: build
the keyword dict from the channel template's parameters (may raise
`IndexError`), call `FibreLossModel(**parameters)` (external constructor
`lossCtor`; raising is not caught), and connect the two nodes. -/
def create_qlink {α : Type}
    (lossCtor : List (String × Int) → Option FibreLossModel)
    (node_one node_two : String) (distance : α) (ch : Channel) :
    Except String (QLink α) :=
  match buildParameters ch.parameters with
  | .error e => .error e
  | .ok parameters =>
    match lossCtor parameters with
    | some lm => .ok ⟨node_one, node_two, distance, lm⟩
    | none => .error "TypeError: FibreLossModel rejected parameters"

/-- Phase 1 of the network builder (lines 229-234): for each role, scan
`node_properties` for the first entry whose slug equals the role's slug;
on a match build the node (with its processor) and record the matching
template; a role with no match is passed over silently. -/
def buildNodes
    (bsmCtor : List (String × Int) → Option BSMNoiseModel)
    (depolarCtor : List (String × Int) → Option DepolarNoiseModel)
    (node_properties : List NodeProperties) :
    List (String × String) →
    Except String (List (String × NSNode × NodeProperties))
  | [] => .ok []
  | (role, slug) :: rest =>
    match node_properties.find? (fun np => np.slug == slug) with
    | some np =>
      match create_processor bsmCtor depolarCtor np with
      | .error e => .error e
      | .ok proc =>
        match buildNodes bsmCtor depolarCtor node_properties rest with
        | .error e => .error e
        | .ok others => .ok ((role, ⟨role, proc⟩, np) :: others)
    | none => buildNodes bsmCtor depolarCtor node_properties rest

/-- `itertools.combinations(l, 2)`: all ordered pairs `(l[i], l[j])` with
`i < j`, in lexicographic position order. -/
def pairs {β : Type} : List β → List (β × β)
  | [] => []
  | x :: xs => xs.map (fun y => (x, y)) ++ pairs xs

/-- The channel-template scan of lines 243-254: the first channel whose
slug is `slug1-slug2` or `slug2-slug1`. -/
def findChannel (channels : List Channel) (slug1 slug2 : String) :
    Option Channel :=
  channels.find? (fun ch =>
    ch.slug == slug1 ++ "-" ++ slug2 || ch.slug == slug2 ++ "-" ++ slug1)

/-- Phase 2 of the network builder (lines 236-255): for each combination
of two constructed nodes, compute the distance, build a quantum link if a
channel template matches the pair's slugs (in either ordering), and
always build a classical link. -/
def buildLinks {α : Type}
    (lossCtor : List (String × Int) → Option FibreLossModel)
    (dist : Coordinates → Coordinates → α) (channels : List Channel) :
    List ((String × NodeProperties) × (String × NodeProperties)) →
    Except String (List (QLink α) × List (CLink α))
  | [] => .ok ([], [])
  | (p1, p2) :: rest =>
    let d := dist p1.2.coordinates p2.2.coordinates
    let qhere : Except String (List (QLink α)) :=
      match findChannel channels p1.2.slug p2.2.slug with
      | some ch =>
        match create_qlink lossCtor p1.1 p2.1 d ch with
        | .error e => .error e
        | .ok q => .ok [q]
      | none => .ok []
    match qhere with
    | .error e => .error e
    | .ok qs1 =>
      match buildLinks lossCtor dist channels rest with
      | .error e => .error e
      | .ok (qs, cs) => .ok (qs1 ++ qs, ⟨p1.1, p2.1, d⟩ :: cs)

/-- `create_netsquid_fully_connected_network(role_dict, node_properties,
channel_properties)`: build the nodes (phase 1), then links for every
combination of two constructed nodes (phase 2), returning the node dict;
connections are the observable side effects.  `role_dict` is a Python
dict, so its keys are distinct; the external NetSquid constructors and
the distance function are passed in. -/
def create_netsquid_fully_connected_network {α : Type}
    (bsmCtor : List (String × Int) → Option BSMNoiseModel)
    (depolarCtor : List (String × Int) → Option DepolarNoiseModel)
    (lossCtor : List (String × Int) → Option FibreLossModel)
    (dist : Coordinates → Coordinates → α)
    (role_dict : List (String × String))
    (node_properties : List NodeProperties)
    (channel_properties : List Channel) : Except String (Network α) :=
  match buildNodes bsmCtor depolarCtor node_properties role_dict with
  | .error e => .error e
  | .ok resolved =>
    match buildLinks lossCtor dist channel_properties
        (pairs (resolved.map (fun x => (x.1, x.2.2)))) with
    | .error e => .error e
    | .ok (qs, cs) =>
      .ok ⟨resolved.map (fun x => (x.1, x.2.1)), qs, cs⟩

/-- The resolution of roles to node templates that phase 1 performs, as a
pure function: each role paired with the first template matching its
slug; roles with no match are dropped. -/
def resolveRoles (node_properties : List NodeProperties)
    (role_dict : List (String × String)) : List (String × NodeProperties) :=
  role_dict.filterMap (fun r =>
    (node_properties.find? (fun np => np.slug == r.2)).map
      (fun np => (r.1, np)))

/-- `math.radians(d)`: degrees to radians. -/
noncomputable def radians (d : ℝ) : ℝ := d * (Real.pi / 180)

/-- `math.atan2(y, x)`: the standard piecewise definition over the four
quadrants and the axes, with `atan2(0, 0) = 0`. -/
noncomputable def atan2 (y x : ℝ) : ℝ :=
  if 0 < x then Real.arctan (y / x)
  else if x < 0 ∧ 0 ≤ y then Real.arctan (y / x) + Real.pi
  else if x < 0 ∧ y < 0 then Real.arctan (y / x) - Real.pi
  else if x = 0 ∧ 0 < y then Real.pi / 2
  else if x = 0 ∧ y < 0 then -(Real.pi / 2)
  else 0

/-- `link_distance(node_one_coords, node_two_coords)` (lines 173-204):
haversine great-circle distance over the two coordinate dictionaries,
with earth radius 6371 km. -/
noncomputable def link_distance (A B : Coordinates) : ℝ :=
  let lat1 := radians A.latitude
  let lon1 := radians A.longitude
  let lat2 := radians B.latitude
  let lon2 := radians B.longitude
  let dlat := lat2 - lat1
  let dlon := lon2 - lon1
  let a := Real.sin (dlat / 2) ^ 2 +
    Real.cos lat1 * Real.cos lat2 * Real.sin (dlon / 2) ^ 2
  let c := 2 * atan2 (Real.sqrt a) (Real.sqrt (1 - a))
  let r : ℝ := 6371.0
  c * r

/-! ## Theorems -/

/-- C1 counterexample: the claim says `process` never propagates an
exception, including when input preparation raises — but `prepare_input`
is called outside the `try` block, so its exception escapes to the caller
and no `RoundResult` is produced. -/
theorem process_prepare_exception_escapes :
    process (.error (.otherError "OSError" "disk full")) (.ok ()) (.ok ())
        [] none
      = .error (.otherError "OSError" "disk full") ∧
    ¬ ∃ results : List ResultType,
        process (.error (.otherError "OSError" "disk full")) (.ok ())
            (.ok ()) [] none
          = .ok results := by
  refine ⟨rfl, ?_⟩
  rintro ⟨results, h⟩
  simp [process] at h

/-- C1 amended: once input and output preparation have succeeded,
`process` returns exactly one `ResultType` — success or error record —
whatever the application run does (any exception raised by
`_run_application` is converted into an error record). -/
theorem process_single_result_after_preparation
    (setup : Except PyExc Unit)
    (roleRuns : List (String × Except PyExc Int)) (timeout : Option Nat) :
    ∃ r : ResultType,
      process (.ok ()) (.ok ()) setup roleRuns timeout = .ok [r] := by
  cases h : run_application setup roleRuns timeout with
  | ok outs => exact ⟨outputConverterConvert 1 outs, by simp [process, h]⟩
  | error exc =>
    exact ⟨errorResultGenerate 1 (exceptInfo exc).1 (exceptInfo exc).2.1
      (exceptInfo exc).2.2, by simp [process, h]⟩

/-- C2: evaluation at the failing input.  With role "alice" returning 42
and role "bob" raising `ValueError("boom")` during the run, the thread
pool loop catches the exception with `except Exception as e: print(e)`;
the round is NOT reported as FAILED with kind ExecutionError: `process`
returns a success result that still exposes the completed role's output
`app_alice ↦ 42` and silently omits "bob". -/
theorem process_swallows_role_exception :
    process (.ok ()) (.ok ()) (.ok ())
        [("alice", .ok 42), ("bob", .error (.otherError "ValueError" "boom"))]
        none
      = .ok [ResultType.success 1 [("app_alice", 42)]] := rfl

/-- C3: evaluation at the failing input.  `_run_application` accepts the
`timeout` argument and never uses it (`#TODO: Handle timeout.`), so the
result of a round is the same for every caller-supplied wall-clock
timeout; in particular with a 1-second bound the round still returns a
success result and never a FAILED record of Timeout kind. -/
theorem run_application_ignores_timeout :
    (∀ (setup : Except PyExc Unit)
       (roleRuns : List (String × Except PyExc Int)) (t₁ t₂ : Option Nat),
       run_application setup roleRuns t₁ = run_application setup roleRuns t₂) ∧
    process (.ok ()) (.ok ()) (.ok ()) [("alice", .ok 1)] (some 1)
      = .ok [ResultType.success 1 [("app_alice", 1)]] :=
  ⟨fun _ _ _ _ => rfl, rfl⟩

/-- C10: a `"qlink-log"` entry resolves sender then receiver through the
role table by unguarded dictionary subscription.  If the sender lookup
raises (key `None` or an unknown role) the call raises that `KeyError`;
if the sender resolves but the receiver lookup raises, the call raises
that `KeyError`; if both resolve, the call appends exactly one qlink
entry and leaves the other two streams (and everything else in the
logger) unchanged. -/
theorem add_log_command_qlink_lookup (L : VanillaNetSquidLogger)
    (message ins : String) (t : Int)
    (sender receiver value : Option String) :
    (∀ e, dictLookup L.role_mappings sender = .error e →
      L.add_log_command message "qlink-log" ins t sender receiver value
        = .error e) ∧
    (∀ sn e, dictLookup L.role_mappings sender = .ok sn →
      dictLookup L.role_mappings receiver = .error e →
      L.add_log_command message "qlink-log" ins t sender receiver value
        = .error e) ∧
    (∀ sn rn, dictLookup L.role_mappings sender = .ok sn →
      dictLookup L.role_mappings receiver = .ok rn →
      L.add_log_command message "qlink-log" ins t sender receiver value
        = .ok { L with qlink_logs := L.qlink_logs ++
            [⟨ins, message, t, [sn, rn], sn ++ "-" ++ rn⟩] }) := by
  refine ⟨?_, ?_, ?_⟩
  · intro e he
    simp [VanillaNetSquidLogger.add_log_command, he]
  · intro sn e hs he
    simp [VanillaNetSquidLogger.add_log_command, hs, he]
  · intro sn rn hs hr
    simp [VanillaNetSquidLogger.add_log_command, hs, hr]

/-- C10 witness: with the role table Sender↦n1, Receiver↦n2, a qlink
entry with a `None` sender raises `KeyError`, while one with both roles
present appends exactly one entry. -/
theorem add_log_command_qlink_lookup_witness :
    ((VanillaNetSquidLogger.init "Sender" "raw_output/LAST"
        [("Sender", "n1"), ("Receiver", "n2")]).add_log_command
      "m" "qlink-log" "SEND" 0 none (some "Receiver") none
        = .error "KeyError: None") ∧
    ((VanillaNetSquidLogger.init "Sender" "raw_output/LAST"
        [("Sender", "n1"), ("Receiver", "n2")]).add_log_command
      "m" "qlink-log" "SEND" 0 (some "Sender") (some "Receiver") none
        = .ok { VanillaNetSquidLogger.init "Sender" "raw_output/LAST"
              [("Sender", "n1"), ("Receiver", "n2")] with
            qlink_logs :=
              (VanillaNetSquidLogger.init "Sender" "raw_output/LAST"
                [("Sender", "n1"), ("Receiver", "n2")]).qlink_logs ++
              [⟨"SEND", "m", 0, ["n1", "n2"], "n1-n2"⟩] }) :=
  ⟨(add_log_command_qlink_lookup _ "m" "SEND" 0 none (some "Receiver")
      none).1 "KeyError: None" rfl,
   (add_log_command_qlink_lookup _ "m" "SEND" 0 (some "Sender")
      (some "Receiver") none).2.2 "n1" "n2" rfl rfl⟩

/-- C4 counterexample: with Sender↦n1 and Receiver↦n2, supplying sender
and receiver in the opposite order produces path key "n2-n1", not the
claimed canonical "n1-n2" — the key depends on the order in which sender
and receiver are supplied. -/
theorem qlink_path_key_depends_on_argument_order :
    ((VanillaNetSquidLogger.init "Receiver" "raw_output/LAST"
        [("Sender", "n1"), ("Receiver", "n2")]).add_log_command
      "m" "qlink-log" "SEND" 0 (some "Receiver") (some "Sender") none
        = .ok { VanillaNetSquidLogger.init "Receiver" "raw_output/LAST"
              [("Sender", "n1"), ("Receiver", "n2")] with
            qlink_logs := [⟨"SEND", "m", 0, ["n2", "n1"], "n2-n1"⟩] }) ∧
    "n2-n1" ≠ "n1-n2" := by
  exact ⟨rfl, by decide⟩

/-- C4 amended: the path key is built from the physical node identities
resolved through the role table, not from role names, and it is the same
whichever role's logger produces the entry (any logger state carrying the
table Sender↦n1, Receiver↦n2 yields "n1-n2" for sender "Sender" and
receiver "Receiver"); but the key is order-sensitive — supplying the
arguments swapped yields the reversed key "n2-n1". -/
theorem qlink_path_key_from_node_identities (L : VanillaNetSquidLogger)
    (h : L.role_mappings = [("Sender", "n1"), ("Receiver", "n2")])
    (message ins : String) (t : Int) (value : Option String) :
    (L.add_log_command message "qlink-log" ins t
        (some "Sender") (some "Receiver") value
      = .ok { L with qlink_logs := L.qlink_logs ++
          [⟨ins, message, t, ["n1", "n2"], "n1-n2"⟩] }) ∧
    (L.add_log_command message "qlink-log" ins t
        (some "Receiver") (some "Sender") value
      = .ok { L with qlink_logs := L.qlink_logs ++
          [⟨ins, message, t, ["n2", "n1"], "n2-n1"⟩] }) := by
  constructor
  · simp [VanillaNetSquidLogger.add_log_command, dictLookup, h]
    rfl
  · simp [VanillaNetSquidLogger.add_log_command, dictLookup, h]
    rfl

/-- C4 witness for the amended claim, at the Receiver-side logger with a
nonempty stream. -/
theorem qlink_path_key_from_node_identities_witness :
    ((⟨[("Sender", "n1"), ("Receiver", "n2")], [], [⟨"X", "p", 7, ["n1", "n2"], "n1-n2"⟩],
        [], "f1", "f2", "f3"⟩ : VanillaNetSquidLogger).add_log_command
      "m" "qlink-log" "SEND" 3 (some "Sender") (some "Receiver") none
        = .ok { (⟨[("Sender", "n1"), ("Receiver", "n2")], [],
              [⟨"X", "p", 7, ["n1", "n2"], "n1-n2"⟩], [], "f1", "f2", "f3"⟩ :
              VanillaNetSquidLogger) with
            qlink_logs := [⟨"X", "p", 7, ["n1", "n2"], "n1-n2"⟩] ++
              [⟨"SEND", "m", 3, ["n1", "n2"], "n1-n2"⟩] }) ∧
    ((⟨[("Sender", "n1"), ("Receiver", "n2")], [], [⟨"X", "p", 7, ["n1", "n2"], "n1-n2"⟩],
        [], "f1", "f2", "f3"⟩ : VanillaNetSquidLogger).add_log_command
      "m" "qlink-log" "SEND" 3 (some "Receiver") (some "Sender") none
        = .ok { (⟨[("Sender", "n1"), ("Receiver", "n2")], [],
              [⟨"X", "p", 7, ["n1", "n2"], "n1-n2"⟩], [], "f1", "f2", "f3"⟩ :
              VanillaNetSquidLogger) with
            qlink_logs := [⟨"X", "p", 7, ["n1", "n2"], "n1-n2"⟩] ++
              [⟨"SEND", "m", 3, ["n2", "n1"], "n2-n1"⟩] }) :=
  ⟨(qlink_path_key_from_node_identities _ rfl "m" "SEND" 3 none).1,
   (qlink_path_key_from_node_identities _ rfl "m" "SEND" 3 none).2⟩

/-- C8 counterexample: `finish_logging` only opens a file when the
corresponding stream is non-empty, so when the current round produced no
instruction entries the instruction log file is NOT rewritten fresh:
stale content from before the call survives, and the file does not
contain only the current round's (zero) entries. -/
theorem finish_logging_empty_stream_keeps_stale_file :
    (VanillaNetSquidLogger.init "alice" "raw_output/LAST" []).finish_logging
        (fun p => if p = "raw_output/LAST/alice_instrs.yaml" then
          [Entry.instr ⟨"X", "stale", 0, none⟩] else [])
        "raw_output/LAST/alice_instrs.yaml"
      = [Entry.instr ⟨"X", "stale", 0, none⟩] ∧
    [Entry.instr ⟨"X", "stale", 0, none⟩] ≠ ([] : List Entry) := by
  exact ⟨rfl, by decide⟩

/-- C8 amended: after `finish_logging`, whenever the current round
produced at least one node-internal entry its file is rewritten fresh
(mode `'w'`) and holds exactly the current round's entries, and likewise
for the classical-link file; a stream with no entries leaves its file
untouched.  The shared quantum-link log file is opened in append mode
(`'a'`): its previous contents are always preserved, with the current
round's qlink entries after them, never truncating earlier rounds. -/
theorem finish_logging_stream_semantics (L : VanillaNetSquidLogger)
    (fs : FileSystem)
    (h1 : L.instr_log_file ≠ L.qlink_log_file)
    (h2 : L.clink_log_file ≠ L.qlink_log_file)
    (h3 : L.instr_log_file ≠ L.clink_log_file) :
    (L.instrs_logs ≠ [] →
      L.finish_logging fs L.instr_log_file = L.instrs_logs.map Entry.instr) ∧
    (L.clink_logs ≠ [] →
      L.finish_logging fs L.clink_log_file = L.clink_logs.map Entry.clink) ∧
    L.finish_logging fs L.qlink_log_file
      = fs L.qlink_log_file ++ L.qlink_logs.map Entry.qlink := by
  refine ⟨?_, ?_, ?_⟩
  · intro hi
    by_cases hq : L.qlink_logs = [] <;> by_cases hc : L.clink_logs = [] <;>
      simp [VanillaNetSquidLogger.finish_logging, writeFile, appendFile,
        hi, hq, hc, h1, h3]
  · intro hc
    by_cases hq : L.qlink_logs = [] <;>
      by_cases hi : L.instrs_logs = [] <;>
      simp [VanillaNetSquidLogger.finish_logging, writeFile, appendFile,
        hi, hq, hc, h2]
  · by_cases hq : L.qlink_logs = [] <;>
      by_cases hi : L.instrs_logs = [] <;>
      by_cases hc : L.clink_logs = [] <;>
      simp [VanillaNetSquidLogger.finish_logging, writeFile, appendFile,
        hi, hq, hc, Ne.symm h1, Ne.symm h2]

/-- C8 witness: a logger with one entry in each stream and a quantum-link
file already holding an earlier round's entry. -/
theorem finish_logging_stream_semantics_witness :
    ((⟨[], [⟨"I", "m", 0, none⟩], [⟨"Q", "m", 0, ["n1", "n2"], "n1-n2"⟩],
        [⟨"C", "m", 0, none, none, none⟩], "f1", "f2", "f3"⟩ :
        VanillaNetSquidLogger).finish_logging
      (fun p => if p = "f2" then [Entry.qlink ⟨"OLD", "old", 0, [], "p"⟩]
        else []) "f1"
      = [Entry.instr ⟨"I", "m", 0, none⟩]) ∧
    ((⟨[], [⟨"I", "m", 0, none⟩], [⟨"Q", "m", 0, ["n1", "n2"], "n1-n2"⟩],
        [⟨"C", "m", 0, none, none, none⟩], "f1", "f2", "f3"⟩ :
        VanillaNetSquidLogger).finish_logging
      (fun p => if p = "f2" then [Entry.qlink ⟨"OLD", "old", 0, [], "p"⟩]
        else []) "f3"
      = [Entry.clink ⟨"C", "m", 0, none, none, none⟩]) ∧
    ((⟨[], [⟨"I", "m", 0, none⟩], [⟨"Q", "m", 0, ["n1", "n2"], "n1-n2"⟩],
        [⟨"C", "m", 0, none, none, none⟩], "f1", "f2", "f3"⟩ :
        VanillaNetSquidLogger).finish_logging
      (fun p => if p = "f2" then [Entry.qlink ⟨"OLD", "old", 0, [], "p"⟩]
        else []) "f2"
      = [Entry.qlink ⟨"OLD", "old", 0, [], "p"⟩,
         Entry.qlink ⟨"Q", "m", 0, ["n1", "n2"], "n1-n2"⟩]) := by
  have h := finish_logging_stream_semantics
    (⟨[], [⟨"I", "m", 0, none⟩], [⟨"Q", "m", 0, ["n1", "n2"], "n1-n2"⟩],
        [⟨"C", "m", 0, none, none, none⟩], "f1", "f2", "f3"⟩ :
        VanillaNetSquidLogger)
    (fun p => if p = "f2" then [Entry.qlink ⟨"OLD", "old", 0, [], "p"⟩]
      else [])
    (by decide) (by decide) (by decide)
  exact ⟨h.1 (by decide), h.2.1 (by decide), h.2.2⟩

/-- C7: whenever the node-template parameter set (absent, i.e. empty, or
present) is not accepted by the external noise-model constructors, node
construction still succeeds, falling back to the perfect models: every
memory position gets `DepolarNoiseModel(depolar_rate=0)` and the
Bell-measurement instruction gets `BSMNoiseModel(det_eff=1)`. -/
theorem create_processor_perfect_fallback
    (bsmCtor : List (String × Int) → Option BSMNoiseModel)
    (depolarCtor : List (String × Int) → Option DepolarNoiseModel)
    (np : NodeProperties) (ps : List (String × Int))
    (hps : buildParameters np.node_parameters = .ok ps)
    (hbsm : bsmCtor ps = none) (hdep : depolarCtor ps = none) :
    create_processor bsmCtor depolarCtor np
      = .ok ⟨"quantum_processor", np.qubits.length,
          List.replicate np.qubits.length ⟨0⟩,
          physicalInstructions ⟨1⟩⟩ := by
  simp [create_processor, hps, hbsm, hdep]

/-- C7 witness: a template with an empty parameter list and constructors
that reject it. -/
theorem create_processor_perfect_fallback_witness :
    create_processor (fun _ => none) (fun _ => none)
        ⟨"slug-a", ⟨0, 0⟩, [], ["q0", "q1"]⟩
      = .ok ⟨"quantum_processor",
          (⟨"slug-a", ⟨0, 0⟩, [], ["q0", "q1"]⟩ : NodeProperties).qubits.length,
          List.replicate
            (⟨"slug-a", ⟨0, 0⟩, [], ["q0", "q1"]⟩ : NodeProperties).qubits.length
            ⟨0⟩,
          physicalInstructions ⟨1⟩⟩ :=
  create_processor_perfect_fallback (fun _ => none) (fun _ => none)
    ⟨"slug-a", ⟨0, 0⟩, [], ["q0", "q1"]⟩ [] rfl rfl rfl

/-- C9: the haversine `link_distance` is symmetric in its two coordinate
dictionaries, and the distance from any coordinates to themselves is
zero. -/
theorem link_distance_symm_and_self_zero :
    (∀ A B : Coordinates, link_distance A B = link_distance B A) ∧
    (∀ A : Coordinates, link_distance A A = 0) := by
  have key : ∀ x y : ℝ,
      Real.sin ((x - y) / 2) ^ 2 = Real.sin ((y - x) / 2) ^ 2 := by
    intro x y
    rw [show (x - y) / 2 = -((y - x) / 2) by ring, Real.sin_neg]
    ring
  constructor
  · intro A B
    simp only [link_distance]
    rw [key (radians B.latitude) (radians A.latitude),
        key (radians B.longitude) (radians A.longitude),
        mul_comm (Real.cos (radians A.latitude))
          (Real.cos (radians B.latitude))]
  · intro A
    simp [link_distance, atan2]

/-- `combinations(l, 2)` yields `choose (length l) 2` pairs. -/
theorem pairs_length_choose {β : Type} (l : List β) :
    (pairs l).length = l.length.choose 2 := by
  induction l with
  | nil => simp [pairs]
  | cons x xs ih =>
    simp [pairs, ih, Nat.choose]

/-- Both components of a combination are members of the list. -/
theorem mem_pairs {β : Type} {l : List β} {p : β × β} (h : p ∈ pairs l) :
    p.1 ∈ l ∧ p.2 ∈ l := by
  induction l with
  | nil => simp [pairs] at h
  | cons x xs ih =>
    simp only [pairs, List.mem_append, List.mem_map] at h
    rcases h with ⟨y, hy, hp⟩ | h
    · rw [← hp]
      exact ⟨List.mem_cons_self x xs, List.mem_cons_of_mem x hy⟩
    · exact ⟨List.mem_cons_of_mem x (ih h).1, List.mem_cons_of_mem x (ih h).2⟩

/-- When `f` is injective on the list (its image has no duplicates), a
combination is determined by the images of its two components. -/
theorem pairs_nodup_inj {β γ : Type} (f : β → γ) :
    ∀ {l : List β}, (l.map f).Nodup →
    ∀ {p q : β × β}, p ∈ pairs l → q ∈ pairs l →
    f p.1 = f q.1 → f p.2 = f q.2 → p = q := by
  intro l
  induction l with
  | nil => intro _ p q hp; simp [pairs] at hp
  | cons x xs ih =>
    intro hnd p q hp hq h1 h2
    rw [List.map_cons, List.nodup_cons] at hnd
    obtain ⟨hx, hnd'⟩ := hnd
    simp only [pairs, List.mem_append, List.mem_map] at hp hq
    rcases hp with ⟨a, ha, hpa⟩ | hp <;> rcases hq with ⟨b, hb, hqb⟩ | hq
    · rw [← hpa, ← hqb]
      rw [← hpa, ← hqb] at h2
      rw [List.inj_on_of_nodup_map hnd' ha hb h2]
    · exfalso
      apply hx
      rw [← hpa] at h1
      rw [h1]
      exact List.mem_map_of_mem f (mem_pairs hq).1
    · exfalso
      apply hx
      rw [← hqb] at h1
      rw [← h1]
      exact List.mem_map_of_mem f (mem_pairs hp).1
    · exact ih hnd' hp hq h1 h2

/-- A successfully created quantum link connects exactly the two node
names it was given. -/
theorem create_qlink_endpoints {α : Type}
    {lossCtor : List (String × Int) → Option FibreLossModel}
    {node_one node_two : String} {d : α} {ch : Channel} {q : QLink α}
    (h : create_qlink lossCtor node_one node_two d ch = .ok q) :
    q.node_one = node_one ∧ q.node_two = node_two := by
  cases hps : buildParameters ch.parameters with
  | error e => simp [create_qlink, hps] at h
  | ok ps =>
    cases hl : lossCtor ps with
    | none => simp [create_qlink, hps, hl] at h
    | some lm =>
      simp [create_qlink, hps, hl] at h
      subst h
      exact ⟨rfl, rfl⟩

/-- Characterization of phase 2: one classical link per combination, and
the quantum links are exactly the combinations for which a channel
template matches, with the pair's role names as endpoints. -/
theorem buildLinks_ok {α : Type}
    {lossCtor : List (String × Int) → Option FibreLossModel}
    {dist : Coordinates → Coordinates → α} {channels : List Channel} :
    ∀ {P : List ((String × NodeProperties) × (String × NodeProperties))}
      {qs : List (QLink α)} {cs : List (CLink α)},
    buildLinks lossCtor dist channels P = .ok (qs, cs) →
    cs.length = P.length ∧
    qs.map (fun q => (q.node_one, q.node_two)) =
      (P.filter (fun p =>
        (findChannel channels p.1.2.slug p.2.2.slug).isSome)).map
        (fun p => (p.1.1, p.2.1)) := by
  intro P
  induction P with
  | nil =>
    intro qs cs h
    unfold buildLinks at h
    cases h
    simp
  | cons p rest ih =>
    intro qs cs h
    obtain ⟨p1, p2⟩ := p
    cases hf : findChannel channels p1.2.slug p2.2.slug with
    | some ch =>
      cases hq : create_qlink lossCtor p1.1 p2.1
          (dist p1.2.coordinates p2.2.coordinates) ch with
      | error e => simp [buildLinks, hf, hq] at h
      | ok q =>
        cases hr : buildLinks lossCtor dist channels rest with
        | error e => simp [buildLinks, hf, hq, hr] at h
        | ok pr =>
          obtain ⟨qs', cs'⟩ := pr
          simp only [buildLinks, hf, hq, hr, Except.ok.injEq,
            Prod.mk.injEq] at h
          obtain ⟨hqs, hcs⟩ := h
          obtain ⟨hlen, hmap⟩ := ih hr
          subst hqs hcs
          constructor
          · simp [hlen]
          · obtain ⟨e1, e2⟩ := create_qlink_endpoints hq
            simp [List.filter_cons, hf, hmap, e1, e2]
    | none =>
      cases hr : buildLinks lossCtor dist channels rest with
      | error e => simp [buildLinks, hf, hr] at h
      | ok pr =>
        obtain ⟨qs', cs'⟩ := pr
        simp only [buildLinks, hf, hr, Except.ok.injEq, Prod.mk.injEq] at h
        obtain ⟨hqs, hcs⟩ := h
        obtain ⟨hlen, hmap⟩ := ih hr
        subst hqs hcs
        constructor
        · simp [hlen]
        · simp [List.filter_cons, hf, hmap]

/-- Characterization of phase 1: the constructed nodes, projected to
role name and matched template, are exactly the role resolution. -/
theorem buildNodes_ok_map
    {bsmCtor : List (String × Int) → Option BSMNoiseModel}
    {depolarCtor : List (String × Int) → Option DepolarNoiseModel}
    {nps : List NodeProperties} :
    ∀ {rd : List (String × String)}
      {resolved : List (String × NSNode × NodeProperties)},
    buildNodes bsmCtor depolarCtor nps rd = .ok resolved →
    resolved.map (fun x => (x.1, x.2.2)) = resolveRoles nps rd := by
  intro rd
  induction rd with
  | nil =>
    intro resolved h
    unfold buildNodes at h
    cases h
    simp [resolveRoles]
  | cons r rest ih =>
    intro resolved h
    obtain ⟨role, slug⟩ := r
    cases hf : nps.find? (fun np => np.slug == slug) with
    | some np =>
      cases hc : create_processor bsmCtor depolarCtor np with
      | error e => simp [buildNodes, hf, hc] at h
      | ok proc =>
        cases hr : buildNodes bsmCtor depolarCtor nps rest with
        | error e => simp [buildNodes, hf, hc, hr] at h
        | ok others =>
          simp only [buildNodes, hf, hc, hr, Except.ok.injEq] at h
          subst h
          simp [resolveRoles, List.filterMap_cons, hf, ih hr]
    | none =>
      simp only [buildNodes, hf] at h
      simp [resolveRoles, List.filterMap_cons, hf]
      have := ih h
      simpa [resolveRoles] using this

/-- Role resolution keeps exactly the roles whose slug has a match, in
order. -/
theorem resolveRoles_map_fst (nps : List NodeProperties)
    (rd : List (String × String)) :
    (resolveRoles nps rd).map Prod.fst =
      (rd.filter (fun r =>
        (nps.find? (fun np => np.slug == r.2)).isSome)).map Prod.fst := by
  induction rd with
  | nil => simp [resolveRoles]
  | cons r rest ih =>
    cases hf : nps.find? (fun np => np.slug == r.2) with
    | some np =>
      simp [resolveRoles, List.filterMap_cons, List.filter_cons, hf] at *
      exact ih
    | none =>
      simp [resolveRoles, List.filterMap_cons, List.filter_cons, hf] at *
      exact ih

/-- C5: for a network built from N ≥ 2 roles with distinct names whose
node templates all resolve, the topology has exactly C(N,2) = N(N-1)/2
classical links (one per combination of two roles, built
unconditionally), and a role pair has a quantum link exactly when some
channel template's slug matches the pair's two node slugs in either
ordering. -/
theorem fully_connected_topology_links {α : Type}
    (bsmCtor : List (String × Int) → Option BSMNoiseModel)
    (depolarCtor : List (String × Int) → Option DepolarNoiseModel)
    (lossCtor : List (String × Int) → Option FibreLossModel)
    (dist : Coordinates → Coordinates → α)
    (role_dict : List (String × String)) (nps : List NodeProperties)
    (channels : List Channel) (net : Network α)
    (hN : 2 ≤ role_dict.length)
    (hnd : (role_dict.map Prod.fst).Nodup)
    (hres : ∀ r ∈ role_dict, (nps.find? (fun np => np.slug == r.2)).isSome)
    (hok : create_netsquid_fully_connected_network bsmCtor depolarCtor
      lossCtor dist role_dict nps channels = .ok net) :
    net.clinks.length = role_dict.length * (role_dict.length - 1) / 2 ∧
    ∀ p ∈ pairs (resolveRoles nps role_dict),
      ((∃ q ∈ net.qlinks, q.node_one = p.1.1 ∧ q.node_two = p.2.1) ↔
        (∃ ch ∈ channels, ch.slug = p.1.2.slug ++ "-" ++ p.2.2.slug ∨
          ch.slug = p.2.2.slug ++ "-" ++ p.1.2.slug)) := by
  cases hbn : buildNodes bsmCtor depolarCtor nps role_dict with
  | error e => simp [create_netsquid_fully_connected_network, hbn] at hok
  | ok resolved =>
    cases hbl : buildLinks lossCtor dist channels
        (pairs (resolved.map (fun x => (x.1, x.2.2)))) with
    | error e =>
      simp [create_netsquid_fully_connected_network, hbn, hbl] at hok
    | ok pr =>
      obtain ⟨qs, cs⟩ := pr
      simp only [create_netsquid_fully_connected_network, hbn, hbl,
        Except.ok.injEq] at hok
      subst hok
      have hR : resolved.map (fun x => (x.1, x.2.2))
          = resolveRoles nps role_dict := buildNodes_ok_map hbn
      obtain ⟨hlen, hmap⟩ := buildLinks_ok hbl
      have hfilter : role_dict.filter
          (fun r => (nps.find? (fun np => np.slug == r.2)).isSome)
          = role_dict :=
        List.filter_eq_self.mpr (fun a ha => hres a ha)
      have hfst : (resolveRoles nps role_dict).map Prod.fst
          = role_dict.map Prod.fst := by
        rw [resolveRoles_map_fst, hfilter]
      have hRlen : (resolveRoles nps role_dict).length
          = role_dict.length := by
        have h := congrArg List.length hfst
        simpa using h
      rw [hR] at hlen hmap
      constructor
      · show cs.length = _
        rw [hlen, pairs_length_choose, hRlen, Nat.choose_two_right]
      · intro p hp
        have hndR : ((resolveRoles nps role_dict).map Prod.fst).Nodup := by
          rw [hfst]; exact hnd
        constructor
        · rintro ⟨q, hq, hq1, hq2⟩
          have hmem : (q.node_one, q.node_two)
              ∈ qs.map (fun q => (q.node_one, q.node_two)) :=
            List.mem_map_of_mem _ hq
          rw [hmap] at hmem
          obtain ⟨p', hp', hnames⟩ := List.mem_map.mp hmem
          obtain ⟨hp'mem, hp'ch⟩ := List.mem_filter.mp hp'
          have h1 : p'.1.1 = p.1.1 := by
            have := congrArg Prod.fst hnames
            simpa [hq1] using this
          have h2 : p'.2.1 = p.2.1 := by
            have := congrArg Prod.snd hnames
            simpa [hq2] using this
          have hpp : p' = p := pairs_nodup_inj Prod.fst hndR hp'mem hp h1 h2
          rw [hpp] at hp'ch
          have := List.find?_isSome.mp hp'ch
          obtain ⟨ch, hch, hpred⟩ := this
          refine ⟨ch, hch, ?_⟩
          simpa using hpred
        · rintro ⟨ch, hch, hslug⟩
          have hm : (findChannel channels p.1.2.slug p.2.2.slug).isSome
              = true := by
            apply List.find?_isSome.mpr
            refine ⟨ch, hch, ?_⟩
            simpa using hslug
          have hpf : p ∈ (pairs (resolveRoles nps role_dict)).filter
              (fun p =>
                (findChannel channels p.1.2.slug p.2.2.slug).isSome) :=
            List.mem_filter.mpr ⟨hp, hm⟩
          have hmem : (p.1.1, p.2.1)
              ∈ qs.map (fun q => (q.node_one, q.node_two)) := by
            rw [hmap]
            exact List.mem_map_of_mem _ hpf
          obtain ⟨q, hq, hnames⟩ := List.mem_map.mp hmem
          refine ⟨q, hq, ?_, ?_⟩
          · exact (Prod.mk.injEq _ _ _ _ ▸ hnames).1
          · exact (Prod.mk.injEq _ _ _ _ ▸ hnames).2

/-- C5 witness: two roles "a"↦slug "s1" and "b"↦slug "s2", one channel
template "s1-s2": one classical link and one quantum link. -/
theorem fully_connected_topology_links_witness :
    (2 ≤ ([("a", "s1"), ("b", "s2")] : List (String × String)).length) ∧
    ((⟨[("a", ⟨"a", ⟨"quantum_processor", 1, [⟨0⟩],
            physicalInstructions ⟨1⟩⟩⟩),
         ("b", ⟨"b", ⟨"quantum_processor", 1, [⟨0⟩],
            physicalInstructions ⟨1⟩⟩⟩)],
        [⟨"a", "b", (), ⟨[]⟩⟩], [⟨"a", "b", ()⟩]⟩ :
        Network Unit).clinks.length = 1 ∧
      ∀ p ∈ pairs (resolveRoles
          [⟨"s1", ⟨0, 0⟩, [], ["q0"]⟩, ⟨"s2", ⟨0, 0⟩, [], ["q0"]⟩]
          [("a", "s1"), ("b", "s2")]),
        ((∃ q ∈ (⟨[("a", ⟨"a", ⟨"quantum_processor", 1, [⟨0⟩],
              physicalInstructions ⟨1⟩⟩⟩),
           ("b", ⟨"b", ⟨"quantum_processor", 1, [⟨0⟩],
              physicalInstructions ⟨1⟩⟩⟩)],
          [⟨"a", "b", (), ⟨[]⟩⟩], [⟨"a", "b", ()⟩]⟩ :
          Network Unit).qlinks,
            q.node_one = p.1.1 ∧ q.node_two = p.2.1) ↔
          (∃ ch ∈ ([⟨"s1-s2", []⟩] : List Channel),
            ch.slug = p.1.2.slug ++ "-" ++ p.2.2.slug ∨
            ch.slug = p.2.2.slug ++ "-" ++ p.1.2.slug))) :=
  ⟨by decide,
   fully_connected_topology_links (fun _ => none) (fun _ => none)
    (fun _ => some ⟨[]⟩) (fun _ _ => ())
    [("a", "s1"), ("b", "s2")]
    [⟨"s1", ⟨0, 0⟩, [], ["q0"]⟩, ⟨"s2", ⟨0, 0⟩, [], ["q0"]⟩]
    [⟨"s1-s2", []⟩]
    ⟨[("a", ⟨"a", ⟨"quantum_processor", 1, [⟨0⟩],
        physicalInstructions ⟨1⟩⟩⟩),
      ("b", ⟨"b", ⟨"quantum_processor", 1, [⟨0⟩],
        physicalInstructions ⟨1⟩⟩⟩)],
     [⟨"a", "b", (), ⟨[]⟩⟩], [⟨"a", "b", ()⟩]⟩
    (by decide) (by decide) (by decide) rfl⟩

/-- C6 counterexample: a role whose slug ("missing") matches no node
template does not make topology construction fail — there is no
ConfigurationError anywhere in this code path; the builder succeeds and
silently returns a topology with zero nodes for one role. -/
theorem unresolved_role_no_configuration_error :
    create_netsquid_fully_connected_network (α := Unit)
        (fun _ => none) (fun _ => none) (fun _ => some ⟨[]⟩)
        (fun _ _ => ()) [("alice", "missing")]
        [⟨"present", ⟨0, 0⟩, [], []⟩] []
      = .ok ⟨[], [], []⟩ ∧
    (⟨[], [], []⟩ : Network Unit).nodes.length
      < ([("alice", "missing")] : List (String × String)).length :=
  ⟨rfl, by decide⟩

/-- C6 amended: a role whose node-template slug has no match in the
catalog is silently skipped — whenever construction returns a topology,
its node set consists of exactly the roles whose slug has a match, in
role order; no error is raised on account of an unresolvable role (the
code has no ConfigurationError), so the topology can have fewer nodes
than roles. -/
theorem unresolved_roles_silently_skipped {α : Type}
    (bsmCtor : List (String × Int) → Option BSMNoiseModel)
    (depolarCtor : List (String × Int) → Option DepolarNoiseModel)
    (lossCtor : List (String × Int) → Option FibreLossModel)
    (dist : Coordinates → Coordinates → α)
    (role_dict : List (String × String)) (nps : List NodeProperties)
    (channels : List Channel) (net : Network α)
    (hok : create_netsquid_fully_connected_network bsmCtor depolarCtor
      lossCtor dist role_dict nps channels = .ok net) :
    net.nodes.map Prod.fst =
      (role_dict.filter (fun r =>
        (nps.find? (fun np => np.slug == r.2)).isSome)).map Prod.fst := by
  cases hbn : buildNodes bsmCtor depolarCtor nps role_dict with
  | error e => simp [create_netsquid_fully_connected_network, hbn] at hok
  | ok resolved =>
    cases hbl : buildLinks lossCtor dist channels
        (pairs (resolved.map (fun x => (x.1, x.2.2)))) with
    | error e =>
      simp [create_netsquid_fully_connected_network, hbn, hbl] at hok
    | ok pr =>
      obtain ⟨qs, cs⟩ := pr
      simp only [create_netsquid_fully_connected_network, hbn, hbl,
        Except.ok.injEq] at hok
      subst hok
      have hR : resolved.map (fun x => (x.1, x.2.2))
          = resolveRoles nps role_dict := buildNodes_ok_map hbn
      have hfst : resolved.map Prod.fst
          = (resolveRoles nps role_dict).map Prod.fst := by
        have h := congrArg (List.map Prod.fst) hR
        simpa [Function.comp] using h
      show (resolved.map (fun x => (x.1, x.2.1))).map Prod.fst = _
      rw [← resolveRoles_map_fst, ← hfst]
      simp [Function.comp]

/-- C6 amended witness: role "alice" resolves, role "bob" has slug
"missing" with no template — the topology's node names are exactly
["alice"]. -/
theorem unresolved_roles_silently_skipped_witness :
    (⟨[("alice", ⟨"alice", ⟨"quantum_processor", 0, [],
          physicalInstructions ⟨1⟩⟩⟩)], [], []⟩ :
        Network Unit).nodes.map Prod.fst =
      (([("alice", "s1"), ("bob", "missing")] :
          List (String × String)).filter (fun r =>
        (([⟨"s1", ⟨0, 0⟩, [], []⟩] : List NodeProperties).find?
          (fun np => np.slug == r.2)).isSome)).map Prod.fst :=
  unresolved_roles_silently_skipped (fun _ => none) (fun _ => none)
    (fun _ => some ⟨[]⟩) (fun _ _ => ())
    [("alice", "s1"), ("bob", "missing")]
    [⟨"s1", ⟨0, 0⟩, [], []⟩] []
    ⟨[("alice", ⟨"alice", ⟨"quantum_processor", 0, [],
        physicalInstructions ⟨1⟩⟩⟩)], [], []⟩ rfl

end QneCli
